import Mathlib

/-!
Verification of the `@abacollection/web` server-assembler (`src/index.js`)
against its natural-language specification.

The repository wires ~30 middleware packages into one Koa application.  We
shallowly embed the constructor's configuration defaults, the middleware
attach order, the glob-bypass wrappers for rate limiting and CSRF, the
transport selection, the error-event handler, and the `listen`/`close`
lifecycle methods.  External collaborators (Node's `net.Server`, the
`multimatch` glob library, `crypto-random-string`) are modelled by their
documented boundary contracts; everything else is translated line by line
from `src/index.js`.
-/

namespace AbaWeb

/-- Snapshot of the process environment variables read by `src/index.js`.
`none` models an unset variable (JS `undefined`). -/
structure Env where
  WEB_HOST : Option String
  WEB_URL : Option String
  SESSION_KEYS : Option String
  COOKIES_KEY : Option String
  NODE_ENV : Option String
  TRUST_PROXY : Option String

/-- Model of the `is-string-and-not-blank` package: true exactly when the
value is a string whose trimmed form is non-empty (an unset env var is
`undefined`, hence not a string). -/
def isSANB : Option String → Bool
  | some s => s.trim ≠ ""
  | none => false

/-- `defaultSrc` from `src/index.js` lines 52-61: the CSP source list derived
from `process.env.WEB_HOST`, or `null` when `WEB_HOST` is not a non-blank
string. -/
def defaultSrc (env : Env) : Option (List String) :=
  if isSANB env.WEB_HOST then
    match env.WEB_HOST with
    | some h =>
        some ["\x27self\x27", "data:", "*." ++ h, "*." ++ h ++ ":*", h, h ++ ":*"]
    | none => none
  else none

/-- `reportUri` from `src/index.js` lines 62-64: the CSP report endpoint
derived from `process.env.WEB_URL`, or `null`. -/
def reportUri (env : Env) : Option String :=
  if isSANB env.WEB_URL then
    match env.WEB_URL with
    | some u => some (u ++ "/report")
    | none => none
  else none

/-- The `directives` record of the default `contentSecurityPolicy`
(`src/index.js` lines 120-133). -/
structure CSPDirectives where
  defaultSrc : List String
  connectSrc : List String
  fontSrc : List String
  imgSrc : List String
  styleSrc : List String
  scriptSrc : List String
  reportUri : Option String
deriving Repr, DecidableEq

/-- The default `helmet` configuration object (`src/index.js` lines 117-159).
Only the `contentSecurityPolicy` member carries structure the spec talks
about; the remaining members are kept as the literal values of the source. -/
structure HelmetConfig where
  contentSecurityPolicy : Option CSPDirectives
  expectCtEnforce : Bool
  expectCtMaxAge : Nat
  expectCtReportUri : Option String
  hstsMaxAge : Nat
  hstsIncludeSubDomains : Bool
  hstsPreload : Bool
  referrerPolicy : String
  xssFilterReportUri : Option String
deriving Repr, DecidableEq

/-- The default `helmet` object as built by the constructor defaults, as a
function of the environment snapshot (the source reads `defaultSrc` and
`reportUri` computed at module load). -/
def defaultHelmet (env : Env) : HelmetConfig :=
  { contentSecurityPolicy :=
      match defaultSrc env with
      | some ds =>
          some
            { defaultSrc := ds
              connectSrc := ds ++ ["https://www.google-analytics.com"]
              fontSrc := ds
              imgSrc := ds
              styleSrc := ds ++ ["\x27unsafe-inline\x27"]
              scriptSrc :=
                ds ++
                  ["https://www.googletagmanager.com", "https://unpkg.com",
                    "\x27unsafe-inline\x27"]
              reportUri := reportUri env }
      | none => none
    expectCtEnforce := true
    expectCtMaxAge := 2592000
    expectCtReportUri := reportUri env
    hstsMaxAge := 31557600
    hstsIncludeSubDomains := true
    hstsPreload := true
    referrerPolicy := "same-origin"
    xssFilterReportUri := reportUri env }

/-- Model of the `crypto-random-string` package: draws `len` characters from
a cryptographic entropy source (abstracted as a stream of characters) and
returns them as a string of exactly the requested length. -/
def cryptoRandomString (len : Nat) (entropy : Nat → Char) : String :=
  String.mk ((List.range len).map entropy)

/-- The default `genSid` configuration value (`src/index.js` lines 104-106):
a zero-argument capability (the entropy stream stands for the process-wide
cryptographic randomness source, not an argument of the JS function) that
returns `cryptoRandomString.async({ length: 32 })`. -/
def genSid (entropy : Nat → Char) : String :=
  cryptoRandomString 32 entropy

/-- Model of one glob pattern of the `multimatch` package matched against a
path: `*` matches any (possibly empty) run of characters, `?` matches one
character, anything else matches itself. -/
def globMatch : List Char → List Char → Bool
  | [], s => s.isEmpty
  | '*' :: ps, s => (List.tails s).any fun t => globMatch ps t
  | '?' :: _, [] => false
  | '?' :: ps, _ :: cs => globMatch ps cs
  | _ :: _, [] => false
  | p :: ps, c :: cs => p == c && globMatch ps cs

/-- Model of `multimatch(path, patterns)` for a single input path: the list
of inputs matching at least one pattern, so `[path]` when some pattern
matches and `[]` otherwise. -/
def multimatch (path : String) (patterns : List String) : List String :=
  if patterns.any (fun pat => globMatch pat.data path.data) then [path] else []

/-- Labels for the middleware stages attached by the `Web` constructor, in
source order (`src/index.js` lines 214-445). -/
inductive Middleware
  | requestReceived
  | timeoutMw
  | responseTime
  | requestId
  | cabinLogging
  | hookBeforeSetup
  | basicAuth
  | rateLimitWrapper
  | removeTrailingSlashes
  | helmet
  | i18nMiddleware
  | i18nRedirect
  | conditionalGet
  | etag
  | cors
  | compress
  | koaCash
  | cacheResponses
  | favicon
  | serveStatic
  | viewsRenderer
  | isajaxFlag
  | metaSeo
  | stateHelper
  | session
  | redirectLoop
  | flash
  | bodyParser
  | prettyJson
  | methodOverride
  | csrfWrapper
  | passportInit
  | passportSess
  | storeIPAddressMw
  | notFoundHandler
  | hookBeforeRoutes
  | routes
deriving DecidableEq, Repr

/-- The merged configuration, restricted to what the constructor branches on.
A `Bool` field records the JS truthiness of the corresponding config value
(`if (this.config.x)` in the source); list- and string-valued fields whose
contents the constructor inspects are kept as data. -/
structure Config where
  timeout : Bool
  hookBeforeSetup : Bool
  auth : Bool
  rateLimit : Bool
  rateLimitIgnoredGlobs : List String
  helmet : Bool
  i18n : Bool
  cors : Bool
  compress : Bool
  koaCash : Bool
  cacheResponses : Bool
  favicon : Bool
  buildDir : Bool
  serveStatic : Bool
  meta : Bool
  redirectLoop : Bool
  methodOverride : Bool
  csrf : Bool
  csrfIgnoredGlobs : List String
  passport : Bool
  storeIPAddress : Bool
  hookBeforeRoutes : Bool
  routes : Bool
  protocol : Option String
  ssl : Bool

/-- Stages attached before the session middleware (`src/index.js` lines
214-345): request-received through the state helper. -/
def preSession (cfg : Config) : List Middleware :=
  [.requestReceived]
    ++ (if cfg.timeout then [.timeoutMw] else [])
    ++ [.responseTime, .requestId, .cabinLogging]
    ++ (if cfg.hookBeforeSetup then [.hookBeforeSetup] else [])
    ++ (if cfg.auth then [.basicAuth] else [])
    ++ (if cfg.rateLimit then [.rateLimitWrapper] else [])
    ++ [.removeTrailingSlashes]
    ++ (if cfg.helmet then [.helmet] else [])
    ++ (if cfg.i18n then [.i18nMiddleware, .i18nRedirect] else [])
    ++ [.conditionalGet, .etag]
    ++ (if cfg.cors then [.cors] else [])
    ++ (if cfg.compress then [.compress] else [])
    ++ (if cfg.koaCash then [.koaCash] else [])
    ++ (if cfg.cacheResponses then [.cacheResponses] else [])
    ++ (if cfg.favicon then [.favicon] else [])
    ++ (if cfg.buildDir ∧ cfg.serveStatic then [.serveStatic] else [])
    ++ [.viewsRenderer, .isajaxFlag]
    ++ (if cfg.meta then [.metaSeo] else [])
    ++ [.stateHelper]

/-- Stages attached after the flash middleware (`src/index.js` lines
369-445): body parser through routes.  CSRF is attached only when
`config.csrf` is truthy and `process.env.NODE_ENV !== 'test'`. -/
def postFlash (cfg : Config) (env : Env) : List Middleware :=
  [.bodyParser, .prettyJson]
    ++ (if cfg.methodOverride then [.methodOverride] else [])
    ++ (if cfg.csrf ∧ env.NODE_ENV ≠ some "test" then [.csrfWrapper] else [])
    ++ (if cfg.passport then [.passportInit, .passportSess] else [])
    ++ (if cfg.storeIPAddress then [.storeIPAddressMw] else [])
    ++ [.notFoundHandler]
    ++ (if cfg.hookBeforeRoutes then [.hookBeforeRoutes] else [])
    ++ (if cfg.routes then [.routes] else [])

/-- The full middleware attach order of the constructor: the pre-session
stages, then session (`src/index.js` line 349), then redirect-loop when
`config.redirectLoop` is truthy (line 360), then flash (line 366), then the
remaining stages.  Koa executes the inbound path of a request in exactly
this attach order (onion model). -/
def middlewarePipeline (cfg : Config) (env : Env) : List Middleware :=
  preSession cfg
    ++ .session
      :: ((if cfg.redirectLoop then [.redirectLoop] else [])
        ++ .flash :: postFlash cfg env)

/-- Outcome of the per-request rate-limit wrapper middleware. -/
inductive RateLimitAction
  | passThrough
  | applyRateLimit
deriving DecidableEq, Repr

/-- The body of the rate-limit wrapper middleware (`src/index.js` lines
243-259): when `rateLimitIgnoredGlobs` is a non-empty array and `multimatch`
returns a non-empty match list for the request path, call `next()` directly;
otherwise run the `ratelimit` middleware. -/
def rateLimitWrapperAction (cfg : Config) (path : String) : RateLimitAction :=
  if cfg.rateLimitIgnoredGlobs ≠ [] then
    if multimatch path cfg.rateLimitIgnoredGlobs ≠ [] then .passThrough
    else .applyRateLimit
  else .applyRateLimit

/-- Outcome of the per-request CSRF wrapper middleware. -/
inductive CsrfAction
  | passThrough
  | validate
deriving DecidableEq, Repr

/-- The body of the CSRF wrapper middleware (`src/index.js` lines 387-412):
when `csrfIgnoredGlobs` is a non-empty array and `multimatch` returns a
non-empty match list for the request path, call `next()` directly; otherwise
run `csrf(ctx, next)` under the forbidden-error re-wrapping. -/
def csrfWrapperAction (cfg : Config) (path : String) : CsrfAction :=
  if cfg.csrfIgnoredGlobs ≠ [] then
    if multimatch path cfg.csrfIgnoredGlobs ≠ [] then .passThrough
    else .validate
  else .validate

/-- The constructed transport (`src/index.js` lines 448-451): either an
`http2.createSecureServer(ssl, handler)` or an `http.createServer(handler)`
holding the composed request handler (`app.callback()`), represented by the
attached middleware pipeline. -/
inductive BuiltServer
  | secureHttp2 (ssl : Bool) (handler : List Middleware)
  | plainHttp (handler : List Middleware)
deriving DecidableEq, Repr

/-- Transport selection from `src/index.js` lines 448-451:
`this.config.protocol === 'https'` picks the secure HTTP/2 server bound to
`this.config.ssl`, anything else the plain HTTP server. -/
def createServer (cfg : Config) (env : Env) : BuiltServer :=
  if cfg.protocol = some "https" then
    .secureHttp2 cfg.ssl (middlewarePipeline cfg env)
  else
    .plainHttp (middlewarePipeline cfg env)

/-- Severity chosen by the app-level error handler. -/
inductive LogLevel
  | warn
  | error
deriving DecidableEq, Repr

/-- Which logger the app-level error handler writes to. -/
inductive LogSink
  | ctxLogger
  | cabin
deriving DecidableEq, Repr

/-- An error delivered to the `app.on('error')` handler, reduced to the one
field the handler inspects: `error.status` (absent and `0` are both falsy in
`error.status && error.status < 500`). -/
structure CtxError where
  status : Option Nat
deriving DecidableEq, Repr

/-- `const level = error.status && error.status < 500 ? 'warn' : 'error'`
(`src/index.js` line 184): `warn` exactly when `status` is present, truthy
(non-zero) and below 500. -/
def errorEventLevel (e : CtxError) : LogLevel :=
  match e.status with
  | some s => if s ≠ 0 ∧ s < 500 then .warn else .error
  | none => .error

/-- Logger selection of the handler (`src/index.js` lines 185-189): the
per-request `ctx.logger` when attached, else the process-wide `cabin`. -/
def errorEventSink (ctxHasLogger : Bool) : LogSink :=
  if ctxHasLogger then .ctxLogger else .cabin

/-- The whole `app.on('error', ...)` handler (`src/index.js` lines 183-190):
pick the severity from the error's status and write the error to the chosen
logger at that severity. -/
def handleAppError (e : CtxError) (ctxHasLogger : Bool) : LogSink × LogLevel :=
  (errorEventSink ctxHasLogger, errorEventLevel e)

/-- Untyped JS values, enough to render the constructor's default
configuration object.  `fn` tags a function-valued member by name. -/
inductive JSValue
  | str (s : String)
  | num (n : Int)
  | bool (b : Bool)
  | null
  | obj (fields : List (String × JSValue))
  | arr (xs : List JSValue)
  | fn (tag : String)
deriving Repr

/-- A JS object literal as an ordered field list; later entries override
earlier ones, as in object-spread syntax. -/
def JSObj : Type := List (String × JSValue)

/-- Key lookup in an object built by spreads: the LAST binding of a key
wins, matching `{...a, ...b}` semantics where `b`'s fields override. -/
def objLookup (k : String) : List (String × JSValue) → Option JSValue
  | [] => none
  | (k', v) :: rest =>
      match objLookup k rest with
      | some v' => some v'
      | none => if k' = k then some v else none

/-- `{...defaults, ...config}` (`src/index.js` lines 69-172): the caller's
fields are spread after the defaults, so they override per top-level key
with no recursion into nested objects. -/
def spreadMerge (defaults caller : List (String × JSValue)) :
    List (String × JSValue) :=
  defaults ++ caller

/-- JS `undefined`/`null`-tolerant rendering of an optional string. -/
def jsOfOptStr : Option String → JSValue
  | some s => .str s
  | none => .null

/-- `sessionKeys` default (`src/index.js` lines 82-84):
`process.env.SESSION_KEYS ? process.env.SESSION_KEYS.split(',') : ['lad']`
(an empty string is falsy). -/
def sessionKeysDefault (env : Env) : JSValue :=
  match env.SESSION_KEYS with
  | some s => if s ≠ "" then .arr ((s.splitOn ",").map .str) else .arr [.str "lad"]
  | none => .arr [.str "lad"]

/-- `cookiesKey` default (`src/index.js` line 85):
`process.env.COOKIES_KEY || 'lad.sid'`. -/
def cookiesKeyDefault (env : Env) : JSValue :=
  match env.COOKIES_KEY with
  | some s => if s ≠ "" then .str s else .str "lad.sid"
  | none => .str "lad.sid"

/-- The default `helmet` object (`src/index.js` lines 117-159) rendered as a
JS value; `2592000 = ms('30d')/1000`, `31557600 = ms('1y')/1000`. -/
def helmetJS (env : Env) : JSValue :=
  .obj
    [("contentSecurityPolicy",
        match defaultSrc env with
        | some ds =>
            .obj
              [("directives",
                  .obj
                    [("defaultSrc", .arr (ds.map .str)),
                      ("connectSrc",
                        .arr ((ds ++ ["https://www.google-analytics.com"]).map .str)),
                      ("fontSrc", .arr (ds.map .str)),
                      ("imgSrc", .arr (ds.map .str)),
                      ("styleSrc",
                        .arr ((ds ++ ["\x27unsafe-inline\x27"]).map .str)),
                      ("scriptSrc",
                        .arr
                          ((ds ++
                              ["https://www.googletagmanager.com",
                                "https://unpkg.com",
                                "\x27unsafe-inline\x27"]).map .str)),
                      ("reportUri", jsOfOptStr (reportUri env))])]
        | none => .null),
      ("expectCt",
        .obj
          [("enforce", .bool true), ("maxAge", .num 2592000),
            ("reportUri", jsOfOptStr (reportUri env))]),
      ("hsts",
        .obj
          [("maxAge", .num 31557600), ("includeSubDomains", .bool true),
            ("preload", .bool true)]),
      ("referrerPolicy", .obj [("policy", .str "same-origin")]),
      ("xssFilter", .obj [("reportUri", jsOfOptStr (reportUri env))])]

/-- The fields of the default `views` object (`src/index.js` lines 72-78). -/
def viewsDefaultFields (resolve : String → String) : List (String × JSValue) :=
  [("root", .str (resolve "./app/views")), ("locals", .obj []),
    ("options", .obj [("extension", .str "pug")])]

/-- The default `views` object (`src/index.js` lines 72-78). -/
def viewsDefault (resolve : String → String) : JSValue :=
  .obj (viewsDefaultFields resolve)

/-- The constructor's default configuration object (`src/index.js` lines
69-171) as an ordered field list: the spread of `sharedConfig('WEB')`
(opaque to this repository, passed as a parameter) followed by the literal
defaults in source order.  `resolve` stands for `path.resolve`; the brotli
parameter keys are Node's numeric `BROTLI_PARAM_MODE = 0` /
`BROTLI_PARAM_QUALITY = 1` with `BROTLI_MODE_TEXT = 1`. -/
def defaultConfigObj (sharedCfg : List (String × JSValue))
    (resolve : String → String) (env : Env) : List (String × JSValue) :=
  sharedCfg ++
    [("meta", .obj []),
      ("views", viewsDefault resolve),
      ("csrf", .obj []),
      ("csrfIgnoredGlobs", .arr [.str "/report"]),
      ("rateLimitIgnoredGlobs", .arr [.str "/report"]),
      ("sessionKeys", sessionKeysDefault env),
      ("cookiesKey", cookiesKeyDefault env),
      ("favicon",
        .obj
          [("path", .str (resolve "./assets/img/favicon.ico")),
            ("options", .obj [])]),
      ("buildDir", .str (resolve "./build")),
      ("serveStatic", .obj []),
      ("redirectLoop", .obj []),
      ("koaCash", .bool false),
      ("cacheResponses", .bool false),
      ("genSid", .fn "genSid"),
      ("methodOverride", .arr [.fn "extractUnderscoreMethod"]),
      ("helmet", helmetJS env),
      ("compress",
        .obj
          [("br",
              .obj [("params", .obj [("0", .num 1), ("1", .num 4)])])])]

/-- State of the process's network stack: the set of ports currently bound
by a listening server socket. -/
structure NetState where
  boundPorts : List Nat
deriving DecidableEq, Repr

/-- Model of Node's `net.Server.listen(port, ...)` contract: rejects with
`EADDRINUSE` when the port is already bound, otherwise binds it. -/
def serverListen (port : Nat) (st : NetState) : Except String NetState :=
  if port ∈ st.boundPorts then .error "EADDRINUSE"
  else .ok { boundPorts := port :: st.boundPorts }

/-- Model of Node's `net.Server.close(cb)` contract: invoking it releases
the server's bound port. -/
def serverCloseOp (port : Nat) (st : NetState) : NetState :=
  { boundPorts := st.boundPorts.erase port }

/-- `Web.listen` (`src/index.js` lines 463-473): the promisified, bound
`server.listen` is INVOKED with `(port, host, ...args)` and awaited, so the
bind actually happens. -/
def webListen (port : Nat) (st : NetState) : Except String NetState :=
  serverListen port st

/-- `Web.close` (`src/index.js` lines 475-477).  The body is
`await util.promisify(this.server.close).bind(this.server);` — the awaited
expression builds a bound function value but never applies it (no argument
list), and awaiting a plain function value resolves immediately with no
side effect.  `server.close` is therefore never invoked: the method
resolves without throwing and the network state is unchanged. -/
def webClose (st : NetState) : NetState :=
  st

/-- Modelled from the spec: the `close()` contract of §4.4 — "asynchronously
releases the bound socket", i.e. what the method body would do had the
promisified bound close been invoked and awaited. -/
def webCloseSpec (port : Nat) (st : NetState) : NetState :=
  serverCloseOp port st

/-! Helper lemmas and sample inputs. -/

/-- Membership in a conditionally attached middleware segment. -/
theorem mem_ite_nil {α : Type} {x : α} {p : Prop} [Decidable p] {l : List α} :
    (x ∈ if p then l else []) ↔ p ∧ x ∈ l := by
  split <;> simp_all

/-- A key bound in the right operand of an object spread keeps its value. -/
theorem objLookup_append_of_right (l1 l2 : List (String × JSValue)) (k : String)
    (v : JSValue) (h : objLookup k l2 = some v) : objLookup k (l1 ++ l2) = some v := by
  induction l1 with
  | nil => simpa using h
  | cons d rest ih => simp [objLookup, ih]

/-- A key absent from the right operand of an object spread falls back to
the left operand. -/
theorem objLookup_append_of_none (l1 l2 : List (String × JSValue)) (k : String)
    (h : objLookup k l2 = none) : objLookup k (l1 ++ l2) = objLookup k l1 := by
  induction l1 with
  | nil => simpa using h
  | cons d rest ih => simp [objLookup, ih]

/-- A concrete configuration used to instantiate the universally quantified
theorems below. -/
def sampleConfig : Config :=
  { timeout := false
    hookBeforeSetup := false
    auth := false
    rateLimit := true
    rateLimitIgnoredGlobs := ["/report"]
    helmet := true
    i18n := false
    cors := false
    compress := true
    koaCash := false
    cacheResponses := false
    favicon := true
    buildDir := true
    serveStatic := true
    meta := true
    redirectLoop := true
    methodOverride := true
    csrf := true
    csrfIgnoredGlobs := ["/report"]
    passport := false
    storeIPAddress := false
    hookBeforeRoutes := false
    routes := false
    protocol := none
    ssl := false }

/-- A concrete environment snapshot with every variable unset. -/
def sampleEnv : Env :=
  { WEB_HOST := none
    WEB_URL := none
    SESSION_KEYS := none
    COOKIES_KEY := none
    NODE_ENV := none
    TRUST_PROXY := none }

/-! The claims. -/

/-- C1: the claim says `close()` fully releases the bound socket so a
subsequent `listen()` on the same port succeeds.  The method body
(`src/index.js` line 476) awaits the promisified bound `server.close`
WITHOUT invoking it, so `close()` resolves without throwing but the port
stays bound and a new instance's `listen()` on it rejects with
`EADDRINUSE`; the spec-intended invocation (`webCloseSpec`) would have
released it. -/
theorem close_never_invokes_server_close :
    webListen 3000 { boundPorts := [] } = .ok { boundPorts := [3000] } ∧
    webClose { boundPorts := [3000] } = { boundPorts := [3000] } ∧
    webListen 3000 (webClose { boundPorts := [3000] }) = .error "EADDRINUSE" ∧
    webListen 3000 (webCloseSpec 3000 { boundPorts := [3000] }) =
      .ok { boundPorts := [3000] } :=
  ⟨rfl, rfl, rfl, rfl⟩

/-- C2: for every configuration the session middleware is attached, and its
attach position (which, in Koa's onion model, is the inbound execution
position) is strictly before the flash middleware and, when
`config.redirectLoop` is truthy, strictly before the redirect-loop
middleware. -/
theorem session_attached_before_redirectLoop_and_flash (cfg : Config) (env : Env) :
    Middleware.session ∈ middlewarePipeline cfg env ∧
    Middleware.flash ∈ middlewarePipeline cfg env ∧
    (middlewarePipeline cfg env).indexOf Middleware.session
      < (middlewarePipeline cfg env).indexOf Middleware.flash ∧
    (cfg.redirectLoop = true →
      Middleware.redirectLoop ∈ middlewarePipeline cfg env ∧
      (middlewarePipeline cfg env).indexOf Middleware.session
        < (middlewarePipeline cfg env).indexOf Middleware.redirectLoop) := by
  have hs : Middleware.session ∉ preSession cfg := by simp [preSession, mem_ite_nil]
  have hf : Middleware.flash ∉ preSession cfg := by simp [preSession, mem_ite_nil]
  have hr : Middleware.redirectLoop ∉ preSession cfg := by
    simp [preSession, mem_ite_nil]
  have h1 : (middlewarePipeline cfg env).indexOf Middleware.session
      = (preSession cfg).length := by
    rw [middlewarePipeline, List.indexOf_append_of_not_mem hs,
      List.indexOf_cons_self]
    omega
  have h2 : (middlewarePipeline cfg env).indexOf Middleware.flash
      = (preSession cfg).length + 1 +
        (if cfg.redirectLoop then [Middleware.redirectLoop] else []).length := by
    rw [middlewarePipeline, List.indexOf_append_of_not_mem hf,
      List.indexOf_cons_ne _ (by decide : Middleware.session ≠ Middleware.flash),
      List.indexOf_append_of_not_mem (by split <;> simp),
      List.indexOf_cons_self]
    omega
  refine ⟨?_, ?_, ?_, ?_⟩
  · simp [middlewarePipeline]
  · simp [middlewarePipeline]
  · rw [h1, h2]; omega
  · intro hrl
    have h3 : (middlewarePipeline cfg env).indexOf Middleware.redirectLoop
        = (preSession cfg).length + 1 := by
      rw [middlewarePipeline, List.indexOf_append_of_not_mem hr,
        List.indexOf_cons_ne _
          (by decide : Middleware.session ≠ Middleware.redirectLoop), hrl]
      simp
    refine ⟨?_, ?_⟩
    · simp [middlewarePipeline, hrl]
    · rw [h1, h3]; omega

/-- C2 witness: the ordering instantiated at a concrete configuration with
`redirectLoop` enabled. -/
theorem session_attached_before_witness :
    Middleware.session ∈ middlewarePipeline sampleConfig sampleEnv ∧
    (middlewarePipeline sampleConfig sampleEnv).indexOf Middleware.session
      < (middlewarePipeline sampleConfig sampleEnv).indexOf Middleware.flash ∧
    (middlewarePipeline sampleConfig sampleEnv).indexOf Middleware.session
      < (middlewarePipeline sampleConfig sampleEnv).indexOf Middleware.redirectLoop :=
  ⟨(session_attached_before_redirectLoop_and_flash sampleConfig sampleEnv).1,
    (session_attached_before_redirectLoop_and_flash sampleConfig sampleEnv).2.2.1,
    ((session_attached_before_redirectLoop_and_flash sampleConfig sampleEnv).2.2.2
      rfl).2⟩

/-- C3: the CSRF wrapper middleware is attached exactly when `config.csrf`
is truthy and `process.env.NODE_ENV` is not `'test'`; and whenever
`csrfIgnoredGlobs` is a non-empty array and the request path matches one of
its patterns, the wrapper calls `next()` directly instead of validating —
for every configuration, so in particular with CSRF enabled outside test
mode. -/
theorem csrf_attach_condition_and_glob_skip (cfg : Config) (env : Env)
    (path : String) :
    (Middleware.csrfWrapper ∈ middlewarePipeline cfg env ↔
      (cfg.csrf = true ∧ env.NODE_ENV ≠ some "test")) ∧
    (cfg.csrfIgnoredGlobs ≠ [] →
      multimatch path cfg.csrfIgnoredGlobs ≠ [] →
      csrfWrapperAction cfg path = .passThrough) := by
  constructor
  · simp [middlewarePipeline, preSession, postFlash, mem_ite_nil]
  · intro h1 h2
    simp [csrfWrapperAction, h1, h2]

/-- C3 witness: with the sample configuration (csrf enabled, globs
`['/report']`) outside test mode, the wrapper is attached and skips
validation on `/report`. -/
theorem csrf_attach_condition_witness :
    Middleware.csrfWrapper ∈ middlewarePipeline sampleConfig sampleEnv ∧
    csrfWrapperAction sampleConfig "/report" = .passThrough :=
  ⟨(csrf_attach_condition_and_glob_skip sampleConfig sampleEnv "/report").1.mpr
      ⟨rfl, by decide⟩,
    (csrf_attach_condition_and_glob_skip sampleConfig sampleEnv "/report").2
      (by decide) (by decide)⟩

/-- C4: when `config.rateLimit` is truthy the rate-limit wrapper is
attached; a request path matching a pattern of the non-empty
`rateLimitIgnoredGlobs` makes the wrapper call `next()` directly, and a
path with no match makes it run the `ratelimit` middleware. -/
theorem rateLimit_glob_skip (cfg : Config) (env : Env) (path : String)
    (hr : cfg.rateLimit = true) :
    Middleware.rateLimitWrapper ∈ middlewarePipeline cfg env ∧
    (cfg.rateLimitIgnoredGlobs ≠ [] →
      multimatch path cfg.rateLimitIgnoredGlobs ≠ [] →
      rateLimitWrapperAction cfg path = .passThrough) ∧
    (multimatch path cfg.rateLimitIgnoredGlobs = [] →
      rateLimitWrapperAction cfg path = .applyRateLimit) := by
  refine ⟨?_, ?_, ?_⟩
  · simp [middlewarePipeline, preSession, mem_ite_nil, hr]
  · intro h1 h2
    simp [rateLimitWrapperAction, h1, h2]
  · intro h
    by_cases hg : cfg.rateLimitIgnoredGlobs = [] <;>
      simp [rateLimitWrapperAction, hg, h]

/-- C4 witness: with rate limiting enabled and globs `['/report']`, the
wrapper is attached, `/report` is passed through, and `/login` is rate
limited. -/
theorem rateLimit_glob_skip_witness :
    Middleware.rateLimitWrapper ∈ middlewarePipeline sampleConfig sampleEnv ∧
    rateLimitWrapperAction sampleConfig "/report" = .passThrough ∧
    rateLimitWrapperAction sampleConfig "/login" = .applyRateLimit :=
  ⟨(rateLimit_glob_skip sampleConfig sampleEnv "/report" rfl).1,
    (rateLimit_glob_skip sampleConfig sampleEnv "/report" rfl).2.1
      (by decide) (by decide),
    (rateLimit_glob_skip sampleConfig sampleEnv "/login" rfl).2.2 (by decide)⟩

/-- C5: when `WEB_HOST` is unset or blank, `defaultSrc` is `null` and the
default helmet object's `contentSecurityPolicy` is `null` — no CSP
directive set is constructed. -/
theorem helmet_csp_null_without_host (env : Env)
    (h : env.WEB_HOST = none ∨ ∃ s, env.WEB_HOST = some s ∧ s.trim = "") :
    defaultSrc env = none ∧
    (defaultHelmet env).contentSecurityPolicy = none := by
  have hs : isSANB env.WEB_HOST = false := by
    rcases h with h | ⟨s, hsome, htrim⟩
    · simp [isSANB, h]
    · simp [isSANB, hsome, htrim]
  have hds : defaultSrc env = none := by simp [defaultSrc, hs]
  exact ⟨hds, by simp [defaultHelmet, hds]⟩

/-- C5 witness: the CSP default at an environment with `WEB_HOST` unset. -/
theorem helmet_csp_null_witness :
    (defaultHelmet sampleEnv).contentSecurityPolicy = none :=
  (helmet_csp_null_without_host sampleEnv (Or.inl rfl)).2

/-- C6: the default `genSid` takes no request-dependent arguments and
returns the `crypto-random-string` draw of length 32: a 32-character
string for every state of the entropy source. -/
theorem genSid_returns_32_char_string (entropy : Nat → Char) :
    (genSid entropy).length = 32 ∧
    genSid entropy = cryptoRandomString 32 entropy := by
  constructor
  · simp [genSid, cryptoRandomString]
  · rfl

/-- C7: `config.protocol === 'https'` selects the secure HTTP/2 server
built from `config.ssl` and the composed handler; every other value of
`protocol`, including unset, selects the plain HTTP server on the composed
handler. -/
theorem createServer_transport_selection (cfg : Config) (env : Env) :
    (cfg.protocol = some "https" →
      createServer cfg env = .secureHttp2 cfg.ssl (middlewarePipeline cfg env)) ∧
    (cfg.protocol ≠ some "https" →
      createServer cfg env = .plainHttp (middlewarePipeline cfg env)) := by
  constructor <;> intro h <;> simp [createServer, h]

/-- C7 witness: transport selection at a concrete https configuration and at
the sample configuration with `protocol` unset. -/
theorem createServer_transport_witness :
    createServer { sampleConfig with protocol := some "https", ssl := true }
        sampleEnv
      = .secureHttp2 true
          (middlewarePipeline
            { sampleConfig with protocol := some "https", ssl := true }
            sampleEnv) ∧
    createServer sampleConfig sampleEnv
      = .plainHttp (middlewarePipeline sampleConfig sampleEnv) :=
  ⟨(createServer_transport_selection
        { sampleConfig with protocol := some "https", ssl := true } sampleEnv).1
      rfl,
    (createServer_transport_selection sampleConfig sampleEnv).2 (by decide)⟩

/-- C8: the app-level error handler logs at `warn` for an error carrying an
HTTP status below 500, at `error` for a status of 500 or above or no
status, writing to the per-request logger when one is attached to the
context and to the process-wide cabin logger otherwise. -/
theorem errorEvent_severity_and_sink (e : CtxError) (b : Bool) :
    (∀ s, e.status = some s → 100 ≤ s → s < 500 → errorEventLevel e = .warn) ∧
    (∀ s, e.status = some s → 500 ≤ s → errorEventLevel e = .error) ∧
    (e.status = none → errorEventLevel e = .error) ∧
    (b = true → (handleAppError e b).1 = .ctxLogger) ∧
    (b = false → (handleAppError e b).1 = .cabin) ∧
    (handleAppError e b).2 = errorEventLevel e := by
  refine ⟨?_, ?_, ?_, ?_, ?_, rfl⟩
  · intro s hs h100 h500
    simp only [errorEventLevel, hs]
    exact if_pos ⟨by omega, h500⟩
  · intro s hs h500
    simp only [errorEventLevel, hs]
    exact if_neg (by omega)
  · intro hnone
    simp [errorEventLevel, hnone]
  · intro hb
    simp [handleAppError, errorEventSink, hb]
  · intro hb
    simp [handleAppError, errorEventSink, hb]

/-- C8 witness: severity and sink at concrete errors: a 404 with a request
logger, a 503 and a status-less error without one. -/
theorem errorEvent_severity_witness :
    errorEventLevel { status := some 404 } = .warn ∧
    errorEventLevel { status := some 503 } = .error ∧
    errorEventLevel { status := none } = .error ∧
    (handleAppError { status := some 404 } true).1 = .ctxLogger ∧
    (handleAppError { status := some 503 } false).1 = .cabin :=
  ⟨(errorEvent_severity_and_sink { status := some 404 } true).1 404 rfl
      (by decide) (by decide),
    (errorEvent_severity_and_sink { status := some 503 } false).2.1 503 rfl
      (by decide),
    (errorEvent_severity_and_sink { status := none } false).2.2.1 rfl,
    (errorEvent_severity_and_sink { status := some 404 } true).2.2.2.1 rfl,
    (errorEvent_severity_and_sink { status := some 503 } false).2.2.2.2.1 rfl⟩

/-- C9: the configuration merge `{...defaults, ...config}` is a shallow
top-level merge: a key bound in the caller's object keeps the caller's
whole value, so a caller-supplied `views` object without `locals` yields a
merged `views` carrying none of the default `root`/`locals`/`options`
fields even though the default `views` binds `locals`. -/
theorem config_merge_is_shallow :
    (∀ (defaults caller : List (String × JSValue)) (k : String) (v : JSValue),
      objLookup k caller = some v →
      objLookup k (spreadMerge defaults caller) = some v) ∧
    (∀ (sharedCfg : List (String × JSValue)) (resolve : String → String)
        (env : Env),
      objLookup "views"
          (spreadMerge (defaultConfigObj sharedCfg resolve env)
            [("views", .obj [("root", .str "./custom")])])
        = some (.obj [("root", .str "./custom")]) ∧
      objLookup "locals" [("root", JSValue.str "./custom")] = none ∧
      objLookup "locals" (viewsDefaultFields resolve) = some (.obj [])) := by
  constructor
  · intro defaults caller k v h
    exact objLookup_append_of_right defaults caller k v h
  · intro sharedCfg resolve env
    refine ⟨?_, rfl, ?_⟩
    · exact objLookup_append_of_right _ _ _ _ rfl
    · simp [viewsDefaultFields, objLookup]

/-- C9 witness: the shallow merge at a concrete one-field object: the
caller's binding of `a` wins over the default's. -/
theorem config_merge_is_shallow_witness :
    objLookup "a" (spreadMerge [("a", JSValue.num 1)] [("a", JSValue.num 2)])
      = some (JSValue.num 2) :=
  config_merge_is_shallow.1 [("a", JSValue.num 1)] [("a", JSValue.num 2)] "a"
    (JSValue.num 2) rfl

/-- C10: when the caller's configuration object binds neither
`csrfIgnoredGlobs` nor `rateLimitIgnoredGlobs`, both merge to the default
`['/report']`; and with glob list `['/report']` the CSRF and rate-limit
wrappers both pass a request for path `/report` straight to `next()`. -/
theorem default_report_glob_bypass :
    (∀ (sharedCfg : List (String × JSValue)) (resolve : String → String)
        (env : Env) (caller : List (String × JSValue)),
      objLookup "csrfIgnoredGlobs" caller = none →
      objLookup "rateLimitIgnoredGlobs" caller = none →
      objLookup "csrfIgnoredGlobs"
          (spreadMerge (defaultConfigObj sharedCfg resolve env) caller)
        = some (.arr [.str "/report"]) ∧
      objLookup "rateLimitIgnoredGlobs"
          (spreadMerge (defaultConfigObj sharedCfg resolve env) caller)
        = some (.arr [.str "/report"])) ∧
    (∀ cfg : Config, cfg.csrfIgnoredGlobs = ["/report"] →
      csrfWrapperAction cfg "/report" = .passThrough) ∧
    (∀ cfg : Config, cfg.rateLimitIgnoredGlobs = ["/report"] →
      rateLimitWrapperAction cfg "/report" = .passThrough) := by
  refine ⟨?_, ?_, ?_⟩
  · intro sharedCfg resolve env caller h1 h2
    rw [spreadMerge, objLookup_append_of_none _ _ _ h1,
      objLookup_append_of_none _ _ _ h2]
    constructor
    · unfold defaultConfigObj
      apply objLookup_append_of_right
      simp [objLookup]
    · unfold defaultConfigObj
      apply objLookup_append_of_right
      simp [objLookup]
  · intro cfg h
    simp [csrfWrapperAction, h, multimatch]
    decide
  · intro cfg h
    simp [rateLimitWrapperAction, h, multimatch]
    decide

/-- C10 witness: the defaults and the bypass at the empty caller object and
the sample configuration. -/
theorem default_report_glob_bypass_witness :
    objLookup "csrfIgnoredGlobs"
        (spreadMerge (defaultConfigObj [] id sampleEnv) [])
      = some (.arr [.str "/report"]) ∧
    objLookup "rateLimitIgnoredGlobs"
        (spreadMerge (defaultConfigObj [] id sampleEnv) [])
      = some (.arr [.str "/report"]) ∧
    csrfWrapperAction sampleConfig "/report" = .passThrough ∧
    rateLimitWrapperAction sampleConfig "/report" = .passThrough :=
  ⟨(default_report_glob_bypass.1 [] id sampleEnv [] rfl rfl).1,
    (default_report_glob_bypass.1 [] id sampleEnv [] rfl rfl).2,
    default_report_glob_bypass.2.1 sampleConfig rfl,
    default_report_glob_bypass.2.2 sampleConfig rfl⟩

end AbaWeb

